import Mathlib

/-!
# Adamantite: logging facility and SDL renderer boundary

A shallow embedding of `Adamantite.core/Logging.{hpp,cpp}` and
`Adamantite.core/Renderers/SDLRenderer.cpp`.

* A `std::string` / C string is the list of its `unsigned char` values.
* An output stream is the list of the lines written to it, each line being the
  text inserted before one `std::endl`.
* Pointers are natural numbers, `0` being the null pointer.
* The SDL library is external: every call the code makes is appended to a call
  log, and the value SDL returns is supplied by a `Backend`, an arbitrary
  function of the calls made so far.
-/

namespace Adamantite

/-! ## Text and console -/

/-- The contents of a `std::string`: its `unsigned char` values in order. -/
abbrev CppString := List Nat

/-- The bytes of a string literal of the source. -/
def lit (s : String) : CppString := s.data.map Char.toNat

/-- The two console streams; each holds the lines written so far, oldest first. -/
structure Console where
  cout : List CppString
  cerr : List CppString
deriving DecidableEq, Repr

namespace core

/-! ## Logging.hpp -/

/-- `enum class LogLevel : int`. -/
inductive LogLevel where
  | Trace
  | Debug
  | Info
  | Warning
  | Error
  | None
deriving DecidableEq, Repr

/-- `static_cast<int>(level)`: the enumerator values of `Logging.hpp`. -/
def LogLevel.toInt : LogLevel → Int
  | .Trace => 0
  | .Debug => 1
  | .Info => 2
  | .Warning => 3
  | .Error => 4
  | .None => 5

/-- The process state the logging functions touch: the atomic `g_log_level`
and the console. -/
structure LogState where
  g_log_level : Int
  con : Console
deriving DecidableEq, Repr

/-- The state at program start: `g_log_level{static_cast<int>(LogLevel::Info)}`,
nothing written yet. -/
def LogState.initial : LogState :=
  { g_log_level := LogLevel.Info.toInt, con := { cout := [], cerr := [] } }

/-- `SetLogLevel`: `g_log_level.store(static_cast<int>(level))`. -/
def SetLogLevel (st : LogState) (level : LogLevel) : LogState :=
  { st with g_log_level := level.toInt }

/-- `GetLogLevel`, as the integer it loads: `g_log_level.load()`. -/
def GetLogLevel (st : LogState) : Int := st.g_log_level

/-! ## Logging.cpp -/

/-- `std::tolower` on an `unsigned char` value in the default "C" locale. -/
def tolower (c : Nat) : Nat := if 65 ≤ c ∧ c ≤ 90 then c + 32 else c

/-- The `std::transform(..., tolower)` of `ParseLogLevel`. -/
def lowered (str : CppString) : CppString := str.map tolower

/-- `ParseLogLevel`. -/
def ParseLogLevel (str : CppString) : LogLevel :=
  let s := lowered str
  if s = lit "trace" then LogLevel.Trace
  else if s = lit "debug" then LogLevel.Debug
  else if s = lit "info" then LogLevel.Info
  else if s = lit "warning" ∨ s = lit "warn" then LogLevel.Warning
  else if s = lit "error" then LogLevel.Error
  else if s = lit "none" then LogLevel.None
  else LogLevel.Info

/-- `should_log`. -/
def should_log (st : LogState) (messageLevel : LogLevel) : Bool :=
  decide (messageLevel.toInt ≥ GetLogLevel st)

/-- `Info`. -/
def Info (st : LogState) (message : CppString) : LogState :=
  if !should_log st LogLevel.Info then st
  else { st with con := { st.con with
    cout := st.con.cout ++ [lit "\x1B[32m[INFO]: " ++ message ++ lit "\x1B[0m"] } }

/-- `Warning`. -/
def Warning (st : LogState) (message : CppString) : LogState :=
  if !should_log st LogLevel.Warning then st
  else { st with con := { st.con with
    cout := st.con.cout ++ [lit "\x1B[33m[WARNING]: " ++ message ++ lit "\x1B[0m"] } }

/-- `Error`. -/
def Error (st : LogState) (message : CppString) : LogState :=
  if !should_log st LogLevel.Error then st
  else { st with con := { st.con with
    cerr := st.con.cerr ++ [lit "\x1B[31m[ERROR]: " ++ message ++ lit "\x1B[0m"] } }

/-- The state after one more line on standard output. -/
def withCout (st : LogState) (line : CppString) : LogState :=
  { st with con := { st.con with cout := st.con.cout ++ [line] } }

/-- The state after one more line on standard error. -/
def withCerr (st : LogState) (line : CppString) : LogState :=
  { st with con := { st.con with cerr := st.con.cerr ++ [line] } }

end core

/-! ## The SDL library, as seen by the renderer -/

/-- A pointer: an address, `0` for `nullptr` / `NULL`. -/
abbrev Ptr := Nat

/-- The packed 32-bit pixel formats of SDL that carry four 8-bit channels. -/
inductive PixelFormat where
  | ARGB8888
  | RGBA8888
  | ABGR8888
  | BGRA8888
deriving DecidableEq, Repr

/-- Byte `i` of a 32-bit pixel value, byte 0 being the least significant. -/
def byteOf (px : Nat) (i : Nat) : Nat := (px / 256 ^ i) % 256

/-- The four channels of a pixel value. -/
structure Channels where
  a : Nat
  r : Nat
  g : Nat
  b : Nat
deriving DecidableEq, Repr

/-- How SDL reads a 32-bit pixel value in a packed format: the format name
lists the channels from the most significant byte to the least significant. -/
def PixelFormat.read : PixelFormat → Nat → Channels
  | .ARGB8888, px => { a := byteOf px 3, r := byteOf px 2, g := byteOf px 1, b := byteOf px 0 }
  | .RGBA8888, px => { r := byteOf px 3, g := byteOf px 2, b := byteOf px 1, a := byteOf px 0 }
  | .ABGR8888, px => { a := byteOf px 3, b := byteOf px 2, g := byteOf px 1, r := byteOf px 0 }
  | .BGRA8888, px => { b := byteOf px 3, g := byteOf px 2, r := byteOf px 1, a := byteOf px 0 }

/-- The SDL calls the renderer makes, with the arguments that vary. The
constant arguments are the ones written in the source:
`SDL_Init(SDL_INIT_VIDEO)`, window position centred and flags `0`,
renderer index `-1` with `ACCELERATED | PRESENTVSYNC`, texture access
`STREAMING`, and `NULL` rectangles. -/
inductive SDLCall where
  | SDL_Init
  | SDL_GetError
  | SDL_CreateWindow (title : CppString) (width height : Int)
  | SDL_CreateRenderer (window : Ptr)
  | SDL_RenderPresent (renderer : Ptr)
  | SDL_SetRenderDrawColor (renderer : Ptr) (r g b a : Nat)
  | SDL_RenderClear (renderer : Ptr)
  | SDL_DestroyRenderer (renderer : Ptr)
  | SDL_DestroyWindow (window : Ptr)
  | SDL_DestroyTexture (texture : Ptr)
  | SDL_Quit
  | SDL_CreateTexture (renderer : Ptr) (format : PixelFormat) (width height : Int)
  | SDL_UpdateTexture (texture : Ptr) (pixels : Ptr) (pitch : Int)
  | SDL_RenderCopy (renderer : Ptr) (texture : Ptr)
deriving DecidableEq, Repr

/-- What SDL answers. Each field gives the value returned by a call as a
function of the call log up to and including that call, so any deterministic
backend (a real one or a test mock) is an instance. -/
structure Backend where
  SDL_Init : List SDLCall → Int
  SDL_GetError : List SDLCall → CppString
  SDL_CreateWindow : List SDLCall → Ptr
  SDL_CreateRenderer : List SDLCall → Ptr
  SDL_CreateTexture : List SDLCall → Ptr

/-- The world outside the renderer objects: the SDL call log (oldest call
first) and the console. -/
structure Env where
  calls : List SDLCall
  con : Console
deriving DecidableEq, Repr

/-- Record one SDL call. -/
def Env.call (e : Env) (c : SDLCall) : Env := { e with calls := e.calls ++ [c] }

/-- One line written to `std::cerr`, ended by `std::endl`. -/
def Env.cerrLine (e : Env) (line : CppString) : Env :=
  { e with con := { e.con with cerr := e.con.cerr ++ [line] } }

/-- Nothing called, nothing written. -/
def Env.initial : Env := { calls := [], con := { cout := [], cerr := [] } }

/-! ## SDLRenderer.cpp: the class -/

/-- The data members of `class SDLRenderer`. -/
structure SDLRenderer where
  window : Ptr
  renderer : Ptr
  texture : Ptr
  textureWidth : Int
  textureHeight : Int
deriving DecidableEq, Repr

/-- Rounding toward zero, as a floating-to-integer conversion does. -/
def truncate (x : ℚ) : Int := if 0 ≤ x then ⌊x⌋ else ⌈x⌉

/-- The cast `(Uint8)x` of a floating value: the value truncated toward zero
when that fits an 8-bit unsigned integer; otherwise the conversion has no
defined result. -/
def toUint8 (x : ℚ) : Option Nat :=
  let t := truncate x
  if 0 ≤ t ∧ t ≤ 255 then some t.toNat else none

/-- The wrap of an integer into the 32-bit `int` range. -/
def toInt32 (x : Int) : Int := (x + 2 ^ 31) % 2 ^ 32 - 2 ^ 31

namespace SDLRenderer

/-- `SDLRenderer()`: the constructor with the default member initialisers. -/
def new : SDLRenderer :=
  { window := 0, renderer := 0, texture := 0, textureWidth := 0, textureHeight := 0 }

/-- `SDLRenderer::Init`. -/
def Init (B : Backend) (self : SDLRenderer) (e : Env) (width height : Int)
    (title : CppString) : Bool × SDLRenderer × Env :=
  let e1 := e.call SDLCall.SDL_Init
  if B.SDL_Init e1.calls ≠ 0 then
    let e2 := e1.call SDLCall.SDL_GetError
    (false, self, e2.cerrLine (lit "SDL_Init Error: " ++ B.SDL_GetError e2.calls))
  else
    let e2 := e1.call (SDLCall.SDL_CreateWindow title width height)
    let self1 := { self with window := B.SDL_CreateWindow e2.calls }
    if self1.window = 0 then
      let e3 := e2.call SDLCall.SDL_GetError
      (false, self1, e3.cerrLine (lit "SDL_CreateWindow Error: " ++ B.SDL_GetError e3.calls))
    else
      let e3 := e2.call (SDLCall.SDL_CreateRenderer self1.window)
      let self2 := { self1 with renderer := B.SDL_CreateRenderer e3.calls }
      if self2.renderer = 0 then
        let e4 := e3.call SDLCall.SDL_GetError
        (false, self2,
          e4.cerrLine (lit "SDL_CreateRenderer Error: " ++ B.SDL_GetError e4.calls))
      else
        (true, self2, e3)

/-- `SDLRenderer::BeginFrame`: "No-op for SDL". -/
def BeginFrame (self : SDLRenderer) (e : Env) : SDLRenderer × Env := (self, e)

/-- `SDLRenderer::EndFrame`. -/
def EndFrame (self : SDLRenderer) (e : Env) : SDLRenderer × Env :=
  (self, e.call (SDLCall.SDL_RenderPresent self.renderer))

/-- `SDLRenderer::Clear`. The result is `none` when one of the four `(Uint8)`
casts has no defined result. -/
def Clear (self : SDLRenderer) (e : Env) (r g b a : ℚ) : Option (SDLRenderer × Env) :=
  match toUint8 (r * 255), toUint8 (g * 255), toUint8 (b * 255), toUint8 (a * 255) with
  | some r8, some g8, some b8, some a8 =>
    let e1 := e.call (SDLCall.SDL_SetRenderDrawColor self.renderer r8 g8 b8 a8)
    some (self, e1.call (SDLCall.SDL_RenderClear self.renderer))
  | _, _, _, _ => none

/-- `SDLRenderer::Shutdown`. -/
def Shutdown (self : SDLRenderer) (e : Env) : SDLRenderer × Env :=
  let (self1, e1) :=
    if self.renderer ≠ 0 then
      ({ self with renderer := 0 }, e.call (SDLCall.SDL_DestroyRenderer self.renderer))
    else (self, e)
  let (self2, e2) :=
    if self1.window ≠ 0 then
      ({ self1 with window := 0 }, e1.call (SDLCall.SDL_DestroyWindow self1.window))
    else (self1, e1)
  let (self3, e3) :=
    if self2.texture ≠ 0 then
      ({ self2 with texture := 0 }, e2.call (SDLCall.SDL_DestroyTexture self2.texture))
    else (self2, e2)
  (self3, e3.call SDLCall.SDL_Quit)

/-- `~SDLRenderer() override { Shutdown(); }`. -/
def destruct (self : SDLRenderer) (e : Env) : SDLRenderer × Env := Shutdown self e

end SDLRenderer

/-! ## SDLRenderer.cpp: the C API -/

/-- The live `SDLRenderer` objects, by address. -/
abbrev Heap := List (Ptr × SDLRenderer)

/-- The object at an address, if one is live there. -/
def Heap.load (hp : Heap) (p : Ptr) : Option SDLRenderer := List.lookup p hp

/-- Write an object at an address. -/
def Heap.store (hp : Heap) (p : Ptr) (s : SDLRenderer) : Heap :=
  (p, s) :: hp.filter (fun q => q.1 ≠ p)

/-- Release the object at an address. -/
def Heap.free (hp : Heap) (p : Ptr) : Heap := hp.filter (fun q => q.1 ≠ p)

/-- An address that is not null and holds no live object. -/
def Heap.fresh (hp : Heap) : Ptr := (hp.map (fun q => q.1)).foldr max 0 + 1

/-- The whole state: the renderer objects and the world outside them. -/
structure Machine where
  heap : Heap
  env : Env
deriving DecidableEq, Repr

/-- No object allocated, nothing called, nothing written. -/
def Machine.initial : Machine := { heap := [], env := Env.initial }

/-- `renderer_create`: `new SDLRenderer()` through `CreateSDLRenderer`. -/
def renderer_create (M : Machine) : Ptr × Machine :=
  let h := M.heap.fresh
  (h, { M with heap := M.heap.store h SDLRenderer.new })

/-- `renderer_destroy`: `delete (IRenderer*)h`. Deleting a null pointer does
nothing; deleting a live object runs its destructor and frees it. A handle
that is neither null nor live has no defined behaviour (`none`), here and in
the operations below. -/
def renderer_destroy (M : Machine) (h : Ptr) : Option Machine :=
  if h = 0 then some M
  else match M.heap.load h with
    | none => none
    | some s => some { heap := M.heap.free h, env := (s.destruct M.env).2 }

/-- `renderer_init`. -/
def renderer_init (B : Backend) (M : Machine) (h : Ptr) (width height : Int)
    (title : CppString) : Option (Bool × Machine) :=
  if h = 0 then some (false, M)
  else match M.heap.load h with
    | none => none
    | some s =>
      let r := s.Init B M.env width height title
      some (r.1, { heap := M.heap.store h r.2.1, env := r.2.2 })

/-- `renderer_begin_frame`. -/
def renderer_begin_frame (M : Machine) (h : Ptr) : Option Machine :=
  if h = 0 then some M
  else match M.heap.load h with
    | none => none
    | some s =>
      let r := s.BeginFrame M.env
      some { heap := M.heap.store h r.1, env := r.2 }

/-- `renderer_end_frame`. -/
def renderer_end_frame (M : Machine) (h : Ptr) : Option Machine :=
  if h = 0 then some M
  else match M.heap.load h with
    | none => none
    | some s =>
      let r := s.EndFrame M.env
      some { heap := M.heap.store h r.1, env := r.2 }

/-- `renderer_clear`. -/
def renderer_clear (M : Machine) (h : Ptr) (r g b a : ℚ) : Option Machine :=
  if h = 0 then some M
  else match M.heap.load h with
    | none => none
    | some s =>
      match s.Clear M.env r g b a with
      | none => none
      | some res => some { heap := M.heap.store h res.1, env := res.2 }

/-- `renderer_shutdown`. -/
def renderer_shutdown (M : Machine) (h : Ptr) : Option Machine :=
  if h = 0 then some M
  else match M.heap.load h with
    | none => none
    | some s =>
      let r := s.Shutdown M.env
      some { heap := M.heap.store h r.1, env := r.2 }

/-- The pitch argument `width * sizeof(uint32_t)` as the `int` SDL receives. -/
def pitchOf (width : Int) : Int := toInt32 (width * 4)

/-- `renderer_present_pixels`. -/
def renderer_present_pixels (B : Backend) (M : Machine) (h : Ptr) (pixels : Ptr)
    (width height : Int) : Option Machine :=
  if h = 0 then some M
  else match M.heap.load h with
    | none => none
    | some s =>
      let (s1, e1) :=
        if s.texture = 0 ∨ s.textureWidth ≠ width ∨ s.textureHeight ≠ height then
          let e0 := if s.texture ≠ 0 then M.env.call (SDLCall.SDL_DestroyTexture s.texture)
                    else M.env
          let e1 := e0.call
            (SDLCall.SDL_CreateTexture s.renderer PixelFormat.ABGR8888 width height)
          ({ s with texture := B.SDL_CreateTexture e1.calls,
                    textureWidth := width, textureHeight := height }, e1)
        else (s, M.env)
      let e2 := e1.call (SDLCall.SDL_UpdateTexture s1.texture pixels (pitchOf width))
      let e3 := e2.call (SDLCall.SDL_RenderCopy s1.renderer s1.texture)
      some { heap := M.heap.store h s1, env := e3 }

/-! ## Sequences of boundary calls and what they issue -/

/-- The boundary calls a caller makes on one handle between `renderer_create`
and `renderer_destroy`. -/
inductive Op where
  | init (width height : Int) (title : CppString)
  | present_pixels (pixels : Ptr) (width height : Int)
  | shutdown
deriving DecidableEq, Repr

/-- One boundary call on handle `h`. -/
def Op.apply (B : Backend) (h : Ptr) (M : Machine) : Op → Option Machine
  | .init width height title => (renderer_init B M h width height title).map (fun r => r.2)
  | .present_pixels pixels width height => renderer_present_pixels B M h pixels width height
  | .shutdown => renderer_shutdown M h

/-- A sequence of boundary calls on handle `h`, in order. -/
def runOps (B : Backend) (h : Ptr) : Machine → List Op → Option Machine
  | M, [] => some M
  | M, op :: ops => (op.apply B h M).bind (fun M1 => runOps B h M1 ops)

/-- The SDL calls made between an earlier state and a later one. -/
def issued (M M1 : Machine) : List SDLCall := M1.env.calls.drop M.env.calls.length

/-- Is the call a texture creation? -/
def SDLCall.isCreateTexture : SDLCall → Bool
  | .SDL_CreateTexture _ _ _ _ => true
  | _ => false

/-- Is the call a texture destruction? -/
def SDLCall.isDestroyTexture : SDLCall → Bool
  | .SDL_DestroyTexture _ => true
  | _ => false

/-- Does the call destroy a window, a drawing context or a texture? -/
def SDLCall.isDestroy : SDLCall → Bool
  | .SDL_DestroyWindow _ => true
  | .SDL_DestroyRenderer _ => true
  | .SDL_DestroyTexture _ => true
  | _ => false

/-- Does the call destroy a window? -/
def SDLCall.isDestroyWindow : SDLCall → Bool
  | .SDL_DestroyWindow _ => true
  | _ => false

/-- Does the call destroy a drawing context? -/
def SDLCall.isDestroyRenderer : SDLCall → Bool
  | .SDL_DestroyRenderer _ => true
  | _ => false

/-- Number of texture creations in a call log. -/
def creations (cs : List SDLCall) : Nat := cs.countP SDLCall.isCreateTexture

/-- Number of texture destructions in a call log. -/
def destructions (cs : List SDLCall) : Nat := cs.countP SDLCall.isDestroyTexture

/-- Textures created minus textures destroyed over a call log. -/
def liveTextures (cs : List SDLCall) : Int := (creations cs : Int) - (destructions cs : Int)

/-- The log `cs` never has fewer than zero or more than one live texture at
any point, and ends with `k` live textures. -/
def SafeLog (cs : List SDLCall) (k : Int) : Prop :=
  (∀ p, p <+: cs → 0 ≤ liveTextures p ∧ liveTextures p ≤ 1) ∧ liveTextures cs = k

/-- The number of live textures a surface accounts for: one if it holds a
texture, none otherwise. -/
def held (s : SDLRenderer) : Int := if s.texture = 0 then 0 else 1

/-- The state of the machine as far as handle `h` and textures go: `h` is
live, the log is safe, and the textures live are those the surface holds. -/
def LiveInv (h : Ptr) (M : Machine) : Prop :=
  ∃ s, M.heap.load h = some s ∧ SafeLog M.env.calls (held s)

/-! ## Test backends -/

/-- A backend on which every call succeeds; each created object gets the
length of the call log plus one as its address (never null, never reused). -/
def okBackend : Backend where
  SDL_Init := fun _ => 0
  SDL_GetError := fun _ => []
  SDL_CreateWindow := fun log => log.length + 1
  SDL_CreateRenderer := fun log => log.length + 1
  SDL_CreateTexture := fun log => log.length + 1

/-- A backend that initialises and creates the window (at address 7) but
cannot create a drawing context. -/
def noContextBackend : Backend where
  SDL_Init := fun _ => 0
  SDL_GetError := fun _ => lit "no driver"
  SDL_CreateWindow := fun _ => 7
  SDL_CreateRenderer := fun _ => 0
  SDL_CreateTexture := fun _ => 0

/-- A backend like `okBackend` that refuses, as SDL does, a texture for a null
renderer or with a dimension that is not positive. -/
def strictBackend : Backend where
  SDL_Init := fun _ => 0
  SDL_GetError := fun _ => lit "Texture dimensions can not be 0"
  SDL_CreateWindow := fun log => log.length + 1
  SDL_CreateRenderer := fun log => log.length + 1
  SDL_CreateTexture := fun log =>
    match log.getLast? with
    | some (SDLCall.SDL_CreateTexture r _ w h) =>
      if r = 0 ∨ w ≤ 0 ∨ h ≤ 0 then 0 else log.length + 1
    | _ => 0

/-- A backend like `okBackend` whose first texture creation fails (a
transient failure) and whose later ones succeed. -/
def flakyBackend : Backend where
  SDL_Init := fun _ => 0
  SDL_GetError := fun _ => lit "out of memory"
  SDL_CreateWindow := fun log => log.length + 1
  SDL_CreateRenderer := fun log => log.length + 1
  SDL_CreateTexture := fun log => if creations log ≤ 1 then 0 else log.length + 1

end Adamantite

/-! ## Properties of the logging facility -/

namespace Adamantite.core

/-- Lowering is idempotent on a byte. -/
theorem tolower_tolower (c : Nat) : tolower (tolower c) = tolower c := by
  unfold tolower
  split_ifs <;> omega

/-- Lowering a string twice is lowering it once. -/
theorem lowered_lowered (s : CppString) : lowered (lowered s) = lowered s := by
  simp [lowered, List.map_map, Function.comp_def, tolower_tolower]

/-- The result of `ParseLogLevel` is a function of the lowered string. -/
theorem ParseLogLevel_lowered (s : CppString) :
    ParseLogLevel (lowered s) = ParseLogLevel s := by
  simp only [ParseLogLevel, lowered_lowered]

/-- C2: `ParseLogLevel` is total and case-insensitive. Its result depends only
on the ASCII-lowercased form of the argument (two strings with the same
lowered form parse alike, and a string parses like its lowered form); it is
`Trace`, `Debug`, `Warning`, `Error`, `None` exactly when the lowered form is
"trace", "debug", "warning" or "warn", "error", "none", and `Info` in every
other case, which covers "info", the empty string and every unrecognised
string. `ParseLogLevel("WARN")` and `ParseLogLevel("warning")` are `Warning`,
`ParseLogLevel("bogus")` is `Info`. -/
theorem ParseLogLevel_spec (s : CppString) :
    (∀ t : CppString, lowered t = lowered s → ParseLogLevel t = ParseLogLevel s) ∧
    ParseLogLevel (lowered s) = ParseLogLevel s ∧
    (ParseLogLevel s = LogLevel.Trace ↔ lowered s = lit "trace") ∧
    (ParseLogLevel s = LogLevel.Debug ↔ lowered s = lit "debug") ∧
    (ParseLogLevel s = LogLevel.Warning ↔
      (lowered s = lit "warning" ∨ lowered s = lit "warn")) ∧
    (ParseLogLevel s = LogLevel.Error ↔ lowered s = lit "error") ∧
    (ParseLogLevel s = LogLevel.None ↔ lowered s = lit "none") ∧
    (ParseLogLevel s = LogLevel.Info ↔
      (lowered s = lit "info" ∨
        lowered s ∉ [lit "trace", lit "debug", lit "info", lit "warning", lit "warn",
          lit "error", lit "none"])) ∧
    ParseLogLevel (lit "WARN") = LogLevel.Warning ∧
    ParseLogLevel (lit "warning") = LogLevel.Warning ∧
    ParseLogLevel (lit "bogus") = LogLevel.Info ∧
    ParseLogLevel (lit "") = LogLevel.Info := by
  refine ⟨?_, ParseLogLevel_lowered s, ?_, ?_, ?_, ?_, ?_, ?_,
    by decide, by decide, by decide, by decide⟩
  · intro t ht
    rw [← ParseLogLevel_lowered t, ht, ParseLogLevel_lowered]
  all_goals
    simp only [ParseLogLevel]
    generalize lowered s = l
    split_ifs with h1 h2 h3 h4 h5 h6
    all_goals first
      | (rcases h4 with h4 | h4 <;> subst h4 <;> decide)
      | (subst_vars; decide)
      | simp_all [lit]

end Adamantite.core

namespace Adamantite.core

/-- C3: the configured level is `Info` at start and otherwise the argument of
the latest `SetLogLevel` (logging calls never change it). With configured
level `L`, each of `Info`, `Warning`, `Error` writes exactly one line when its
own severity (2, 3, 4) is at least the value of `L` (one line: one text ended
by `std::endl`), and leaves the whole state unchanged otherwise; `Info` and `Warning` write the line to standard output,
`Error` to standard error, and the other stream is untouched. After
`SetLogLevel(Warning)` an `Info` call writes nothing while `Warning` and
`Error` each write their line; after `SetLogLevel(None)` no call writes. -/
theorem logging_gated_by_level (st : LogState) (L : LogLevel) (message : CppString) :
    GetLogLevel LogState.initial = LogLevel.Info.toInt ∧
    LogState.initial = SetLogLevel LogState.initial LogLevel.Info ∧
    GetLogLevel (SetLogLevel st L) = L.toInt ∧
    GetLogLevel (Info st message) = GetLogLevel st ∧
    GetLogLevel (Warning st message) = GetLogLevel st ∧
    GetLogLevel (Error st message) = GetLogLevel st ∧
    LogLevel.Trace.toInt < LogLevel.Debug.toInt ∧
    LogLevel.Debug.toInt < LogLevel.Info.toInt ∧
    LogLevel.Info.toInt < LogLevel.Warning.toInt ∧
    LogLevel.Warning.toInt < LogLevel.Error.toInt ∧
    LogLevel.Error.toInt < LogLevel.None.toInt ∧
    Info (SetLogLevel st L) message =
      (if 2 ≥ L.toInt then
        withCout (SetLogLevel st L) (lit "\x1B[32m[INFO]: " ++ message ++ lit "\x1B[0m")
       else SetLogLevel st L) ∧
    Warning (SetLogLevel st L) message =
      (if 3 ≥ L.toInt then
        withCout (SetLogLevel st L) (lit "\x1B[33m[WARNING]: " ++ message ++ lit "\x1B[0m")
       else SetLogLevel st L) ∧
    Error (SetLogLevel st L) message =
      (if 4 ≥ L.toInt then
        withCerr (SetLogLevel st L) (lit "\x1B[31m[ERROR]: " ++ message ++ lit "\x1B[0m")
       else SetLogLevel st L) ∧
    Info (SetLogLevel st LogLevel.Warning) message = SetLogLevel st LogLevel.Warning ∧
    (Warning (SetLogLevel st LogLevel.Warning) message).con.cout =
      st.con.cout ++ [lit "\x1B[33m[WARNING]: " ++ message ++ lit "\x1B[0m"] ∧
    (Error (SetLogLevel st LogLevel.Warning) message).con.cerr =
      st.con.cerr ++ [lit "\x1B[31m[ERROR]: " ++ message ++ lit "\x1B[0m"] ∧
    Info (SetLogLevel st LogLevel.None) message = SetLogLevel st LogLevel.None ∧
    Warning (SetLogLevel st LogLevel.None) message = SetLogLevel st LogLevel.None ∧
    Error (SetLogLevel st LogLevel.None) message = SetLogLevel st LogLevel.None := by
  refine ⟨rfl, rfl, rfl, ?_, ?_, ?_, by decide, by decide, by decide, by decide, by decide,
    ?_, ?_, ?_, ?_, ?_, ?_, ?_, ?_, ?_⟩
  · unfold Info; split_ifs <;> rfl
  · unfold Warning; split_ifs <;> rfl
  · unfold Error; split_ifs <;> rfl
  · cases L <;>
      simp [Info, should_log, GetLogLevel, SetLogLevel, LogLevel.toInt, withCout]
  · cases L <;>
      simp [Warning, should_log, GetLogLevel, SetLogLevel, LogLevel.toInt, withCout]
  · cases L <;>
      simp [Error, should_log, GetLogLevel, SetLogLevel, LogLevel.toInt, withCerr]
  · simp [Info, should_log, GetLogLevel, SetLogLevel, LogLevel.toInt]
  · simp [Warning, should_log, GetLogLevel, SetLogLevel, LogLevel.toInt]
  · simp [Error, should_log, GetLogLevel, SetLogLevel, LogLevel.toInt]
  · simp [Info, should_log, GetLogLevel, SetLogLevel, LogLevel.toInt]
  · simp [Warning, should_log, GetLogLevel, SetLogLevel, LogLevel.toInt]
  · simp [Error, should_log, GetLogLevel, SetLogLevel, LogLevel.toInt]

end Adamantite.core

/-! ## Properties of the renderer class -/

namespace Adamantite

/-- What `Shutdown` does to the fields: the three pointers become null, the
recorded texture size stays. -/
theorem SDLRenderer.Shutdown_state (s : SDLRenderer) (e : Env) :
    (s.Shutdown e).1 = { s with window := 0, renderer := 0, texture := 0 } := by
  obtain ⟨w, r, t, tw, th⟩ := s
  by_cases hr : r = 0 <;> by_cases hw : w = 0 <;> by_cases ht : t = 0 <;>
    simp [SDLRenderer.Shutdown, hr, hw, ht]

/-- On a surface whose three pointers are null, `Shutdown` only calls `SDL_Quit`. -/
theorem SDLRenderer.Shutdown_of_null (s : SDLRenderer) (e : Env)
    (hw : s.window = 0) (hr : s.renderer = 0) (ht : s.texture = 0) :
    s.Shutdown e = (s, e.call SDLCall.SDL_Quit) := by
  simp [SDLRenderer.Shutdown, hw, hr, ht]

/-- The SDL calls of one `Shutdown`: at most one destroy call for each of the
drawing context, the window and the texture, then `SDL_Quit`. -/
theorem SDLRenderer.Shutdown_calls (s : SDLRenderer) (e : Env) :
    (s.Shutdown e).2.calls = e.calls ++
      ((if s.renderer ≠ 0 then [SDLCall.SDL_DestroyRenderer s.renderer] else []) ++
       (if s.window ≠ 0 then [SDLCall.SDL_DestroyWindow s.window] else []) ++
       (if s.texture ≠ 0 then [SDLCall.SDL_DestroyTexture s.texture] else []) ++
       [SDLCall.SDL_Quit]) := by
  obtain ⟨w, r, t, tw, th⟩ := s
  by_cases hr : r = 0 <;> by_cases hw : w = 0 <;> by_cases ht : t = 0 <;>
    simp [SDLRenderer.Shutdown, hr, hw, ht, Env.call]

/-- C7: `Shutdown` is idempotent on the surface state. For every surface `s`
and worlds `e`, `e1`: shutting down the result of a `Shutdown` leaves it as it
is; after `Shutdown` the window, drawing context and texture pointers are all
null; and a further `Shutdown`, called explicitly or by the destructor, issues
exactly one SDL call, `SDL_Quit`, hence no destroy call for a window, drawing
context or texture. Over a `Shutdown` followed by a second one, the code
issues at most one destroy call for the window, at most one for the drawing
context and at most one for the texture. -/
theorem Shutdown_idempotent (s : SDLRenderer) (e e1 : Env) :
    ((s.Shutdown e).1.Shutdown e1).1 = (s.Shutdown e).1 ∧
    (s.Shutdown e).1.window = 0 ∧
    (s.Shutdown e).1.renderer = 0 ∧
    (s.Shutdown e).1.texture = 0 ∧
    ((s.Shutdown e).1.Shutdown e1).2 = e1.call SDLCall.SDL_Quit ∧
    ((s.Shutdown e).1.destruct e1).2 = e1.call SDLCall.SDL_Quit ∧
    (((s.Shutdown e).1.Shutdown e1).2.calls.drop e1.calls.length).countP
      SDLCall.isDestroy = 0 ∧
    (((s.Shutdown e).1.destruct e1).2.calls.drop e1.calls.length).countP
      SDLCall.isDestroy = 0 ∧
    ((((s.Shutdown e).1.Shutdown (s.Shutdown e).2).2.calls.drop e.calls.length).countP
      SDLCall.isDestroyWindow ≤ 1 ∧
     (((s.Shutdown e).1.Shutdown (s.Shutdown e).2).2.calls.drop e.calls.length).countP
      SDLCall.isDestroyRenderer ≤ 1 ∧
     (((s.Shutdown e).1.Shutdown (s.Shutdown e).2).2.calls.drop e.calls.length).countP
      SDLCall.isDestroyTexture ≤ 1) := by
  have hs := SDLRenderer.Shutdown_state s e
  have h2 : ∀ e1, (s.Shutdown e).1.Shutdown e1 = ((s.Shutdown e).1, e1.call SDLCall.SDL_Quit) :=
    fun e1 => SDLRenderer.Shutdown_of_null _ _ (by rw [hs]) (by rw [hs]) (by rw [hs])
  refine ⟨by rw [h2], by rw [hs], by rw [hs], by rw [hs], by rw [h2], ?_, ?_, ?_, ?_⟩
  · simp only [SDLRenderer.destruct]; rw [h2]
  · rw [h2]; simp [Env.call, SDLCall.isDestroy]
  · simp only [SDLRenderer.destruct]; rw [h2]; simp [Env.call, SDLCall.isDestroy]
  · rw [h2]
    simp only [Env.call, SDLRenderer.Shutdown_calls, List.append_assoc, List.drop_left]
    refine ⟨?_, ?_, ?_⟩ <;>
      by_cases hr : s.renderer = 0 <;> by_cases hw : s.window = 0 <;>
      by_cases ht : s.texture = 0 <;>
      simp [hr, hw, ht, SDLCall.isDestroyWindow, SDLCall.isDestroyRenderer,
        SDLCall.isDestroyTexture]

/-- The SDL calls of `Shutdown` on a surface that holds a window, a drawing
context and a texture: the drawing context is destroyed first, then the window,
then the texture, then `SDL_Quit`. -/
theorem SDLRenderer.Shutdown_calls_of_full (s : SDLRenderer) (e : Env)
    (hw : s.window ≠ 0) (hr : s.renderer ≠ 0) (ht : s.texture ≠ 0) :
    (s.Shutdown e).2.calls = e.calls ++
      [SDLCall.SDL_DestroyRenderer s.renderer, SDLCall.SDL_DestroyWindow s.window,
       SDLCall.SDL_DestroyTexture s.texture, SDLCall.SDL_Quit] := by
  simp [SDLRenderer.Shutdown, hw, hr, ht, Env.call]

/-- C8 (what the code does): on a surface that holds a window, a drawing
context and a texture, `Shutdown` issues `SDL_DestroyRenderer`,
`SDL_DestroyWindow`, `SDL_DestroyTexture`, `SDL_Quit` in that order: the
texture is released last of the three, after the drawing context it was
created from, not first. Shown on the surface holding window 1, context 2 and
texture 3, and on the whole log of create, init, present 2 x 2, shutdown with
the all-succeeding backend (window 3, context 4, texture 5). -/
theorem Shutdown_destroys_texture_last :
    ((SDLRenderer.Shutdown
        { window := 1, renderer := 2, texture := 3, textureWidth := 64, textureHeight := 64 }
        Env.initial).2.calls =
      [SDLCall.SDL_DestroyRenderer 2, SDLCall.SDL_DestroyWindow 1,
       SDLCall.SDL_DestroyTexture 3, SDLCall.SDL_Quit]) ∧
    ((SDLRenderer.Shutdown
        { window := 1, renderer := 2, texture := 3, textureWidth := 64, textureHeight := 64 }
        Env.initial).2.calls ≠
      [SDLCall.SDL_DestroyTexture 3, SDLCall.SDL_DestroyRenderer 2,
       SDLCall.SDL_DestroyWindow 1, SDLCall.SDL_Quit]) ∧
    ((runOps okBackend 1 (renderer_create Machine.initial).2
        [Op.init 640 480 (lit "demo"), Op.present_pixels 100 2 2, Op.shutdown]).map
      (fun M => M.env.calls)) =
      some [SDLCall.SDL_Init, SDLCall.SDL_CreateWindow (lit "demo") 640 480,
            SDLCall.SDL_CreateRenderer 3,
            SDLCall.SDL_CreateTexture 4 PixelFormat.ABGR8888 2 2,
            SDLCall.SDL_UpdateTexture 5 100 8, SDLCall.SDL_RenderCopy 4 5,
            SDLCall.SDL_DestroyRenderer 4, SDLCall.SDL_DestroyWindow 3,
            SDLCall.SDL_DestroyTexture 5, SDLCall.SDL_Quit] := by
  refine ⟨by decide, by decide, by decide⟩

end Adamantite

namespace Adamantite

/-- C6 (counterexample): with a backend that initialises and creates the
window but fails to create the drawing context, `Init` on a freshly
constructed surface returns false and the surface still holds the window it
created (address 7), so its window field is not null. -/
theorem Init_failure_keeps_window :
    (SDLRenderer.Init noContextBackend SDLRenderer.new Env.initial 640 480 (lit "demo")).1
      = false ∧
    (SDLRenderer.Init noContextBackend SDLRenderer.new Env.initial 640 480
      (lit "demo")).2.1.window = 7 ∧
    (SDLRenderer.Init noContextBackend SDLRenderer.new Env.initial 640 480
      (lit "demo")).2.1 ≠ SDLRenderer.new ∧
    (SDLRenderer.Init noContextBackend SDLRenderer.new Env.initial 640 480
      (lit "demo")).2.2.calls =
      [SDLCall.SDL_Init, SDLCall.SDL_CreateWindow (lit "demo") 640 480,
       SDLCall.SDL_CreateRenderer 7, SDLCall.SDL_GetError] := by
  refine ⟨by decide, by decide, by decide, by decide⟩

/-- C6 (amended): if `Init` returns false on a freshly constructed surface,
then the surface holds no drawing context and no texture, and either the
failure was backend initialisation or window creation and the surface is
exactly as freshly constructed (no window), or backend initialisation and
window creation succeeded, drawing-context creation failed, and the surface
holds the window just created (not null) and is otherwise as freshly
constructed. -/
theorem Init_failure_state (B : Backend) (e : Env) (width height : Int) (title : CppString)
    (hfail : (SDLRenderer.Init B SDLRenderer.new e width height title).1 = false) :
    (SDLRenderer.Init B SDLRenderer.new e width height title).2.1.renderer = 0 ∧
    (SDLRenderer.Init B SDLRenderer.new e width height title).2.1.texture = 0 ∧
    (((B.SDL_Init (e.calls ++ [SDLCall.SDL_Init]) ≠ 0 ∨
        B.SDL_CreateWindow (e.calls ++ [SDLCall.SDL_Init,
          SDLCall.SDL_CreateWindow title width height]) = 0) ∧
      (SDLRenderer.Init B SDLRenderer.new e width height title).2.1 = SDLRenderer.new) ∨
     (B.SDL_Init (e.calls ++ [SDLCall.SDL_Init]) = 0 ∧
      B.SDL_CreateWindow (e.calls ++ [SDLCall.SDL_Init,
          SDLCall.SDL_CreateWindow title width height]) ≠ 0 ∧
      B.SDL_CreateRenderer (e.calls ++ [SDLCall.SDL_Init,
          SDLCall.SDL_CreateWindow title width height,
          SDLCall.SDL_CreateRenderer (B.SDL_CreateWindow (e.calls ++ [SDLCall.SDL_Init,
            SDLCall.SDL_CreateWindow title width height]))]) = 0 ∧
      (SDLRenderer.Init B SDLRenderer.new e width height title).2.1 =
        { SDLRenderer.new with
          window := B.SDL_CreateWindow (e.calls ++ [SDLCall.SDL_Init,
            SDLCall.SDL_CreateWindow title width height]) })) := by
  revert hfail
  simp only [SDLRenderer.Init, Env.call, List.append_assoc, List.singleton_append,
    List.cons_append, List.nil_append]
  by_cases h1 : B.SDL_Init (e.calls ++ [SDLCall.SDL_Init]) = 0
  · by_cases h2 : B.SDL_CreateWindow (e.calls ++ [SDLCall.SDL_Init,
        SDLCall.SDL_CreateWindow title width height]) = 0
    · simp [h1, h2, SDLRenderer.new]
    · by_cases h3 : B.SDL_CreateRenderer (e.calls ++ [SDLCall.SDL_Init,
          SDLCall.SDL_CreateWindow title width height,
          SDLCall.SDL_CreateRenderer (B.SDL_CreateWindow (e.calls ++ [SDLCall.SDL_Init,
            SDLCall.SDL_CreateWindow title width height]))]) = 0
      · simp [h1, h2, h3, SDLRenderer.new]
      · simp [h1, h2, h3, SDLRenderer.new]
  · simp [h1, SDLRenderer.new]

/-- C6 (amended), at a concrete input: the context-less backend on a fresh
surface. -/
theorem Init_failure_state_witness :
    (SDLRenderer.Init noContextBackend SDLRenderer.new Env.initial 640 480
      (lit "demo")).1 = false ∧
    (SDLRenderer.Init noContextBackend SDLRenderer.new Env.initial 640 480
      (lit "demo")).2.1.renderer = 0 ∧
    (SDLRenderer.Init noContextBackend SDLRenderer.new Env.initial 640 480
      (lit "demo")).2.1.texture = 0 :=
  ⟨by decide,
   (Init_failure_state noContextBackend Env.initial 640 480 (lit "demo") (by decide)).1,
   (Init_failure_state noContextBackend Env.initial 640 480 (lit "demo") (by decide)).2.1⟩

end Adamantite

namespace Adamantite

/-- The truncation is at least 0 exactly above -1. -/
theorem truncate_nonneg_iff (x : ℚ) : 0 ≤ truncate x ↔ -1 < x := by
  unfold truncate
  split_ifs with h
  · constructor
    · intro _; linarith
    · intro _; exact Int.floor_nonneg.mpr h
  · push_neg at h
    have hc : (0 ≤ ⌈x⌉) ↔ ((-1 : ℤ) < ⌈x⌉) := by omega
    rw [hc, Int.lt_ceil]
    norm_num

/-- The truncation is at most 255 exactly below 256. -/
theorem truncate_le_iff (x : ℚ) : truncate x ≤ 255 ↔ x < 256 := by
  unfold truncate
  split_ifs with h
  · have hc : (⌊x⌋ ≤ 255) ↔ (⌊x⌋ < (256 : ℤ)) := by omega
    rw [hc, Int.floor_lt]
    norm_num
  · push_neg at h
    constructor
    · intro _; linarith
    · intro _
      have : ⌈x⌉ ≤ 0 := Int.ceil_le.mpr (by exact_mod_cast h.le)
      omega

/-- The cast to `Uint8` is defined exactly on the open interval (-1, 256). -/
theorem toUint8_eq_none_iff (x : ℚ) : toUint8 x = none ↔ (x ≤ -1 ∨ 256 ≤ x) := by
  have h1 := truncate_nonneg_iff x
  have h2 := truncate_le_iff x
  simp only [toUint8]
  split_ifs with h
  · simp only [reduceCtorEq, false_iff, not_or, not_le]
    exact ⟨h1.mp h.1, h2.mp h.2⟩
  · simp only [true_iff]
    by_contra hc
    push_neg at hc
    exact h ⟨h1.mpr hc.1, h2.mpr hc.2⟩

/-- Inside (-1, 256) the cast gives the truncated value. -/
theorem toUint8_of_range (x : ℚ) (h : -1 < x ∧ x < 256) :
    toUint8 x = some (truncate x).toNat := by
  simp only [toUint8]
  rw [if_pos ⟨(truncate_nonneg_iff x).mpr h.1, (truncate_le_iff x).mpr h.2⟩]

/-- Half of 255 truncates to 127. -/
theorem truncate_half : truncate ((1 / 2 : ℚ) * 255) = 127 := by
  unfold truncate
  rw [if_pos (by norm_num), Int.floor_eq_iff]
  norm_num

/-- C5 (counterexample): `Clear(-1, 2, 0.5, 0.5)` does not program the draw
colour (0, 255, 127, 127). The red cast `(Uint8)(-255)` and the green cast
`(Uint8)(510)` are outside the range of an 8-bit unsigned integer; the code
has no clamp, so the call has no defined result and in particular does not
yield the clamped colour. -/
theorem Clear_out_of_range_not_clamped :
    toUint8 ((-1 : ℚ) * 255) = none ∧
    toUint8 ((2 : ℚ) * 255) = none ∧
    SDLRenderer.Clear SDLRenderer.new Env.initial (-1) 2 (1 / 2) (1 / 2) = none ∧
    SDLRenderer.Clear SDLRenderer.new Env.initial (-1) 2 (1 / 2) (1 / 2) ≠
      some (SDLRenderer.new,
        (Env.initial.call (SDLCall.SDL_SetRenderDrawColor 0 0 255 127 127)).call
          (SDLCall.SDL_RenderClear 0)) := by
  have h1 : toUint8 ((-1 : ℚ) * 255) = none :=
    (toUint8_eq_none_iff _).mpr (Or.inl (by norm_num))
  have h2 : toUint8 ((2 : ℚ) * 255) = none :=
    (toUint8_eq_none_iff _).mpr (Or.inr (by norm_num))
  have h3 : SDLRenderer.Clear SDLRenderer.new Env.initial (-1) 2 (1 / 2) (1 / 2) = none := by
    simp only [SDLRenderer.Clear, h1]
  refine ⟨h1, h2, h3, ?_⟩
  rw [h3]
  exact fun h => Option.noConfusion h

/-- C5 (amended): for channel values `r, g, b, a` (exact rationals) whose
scaled value `255 * x` lies strictly between -1 and 256, which includes every
`x` in [0, 1], `Clear` programs the draw colour with, for each channel, `x`
scaled by 255 and rounded toward zero, then clears; nothing is clamped. In
that range `x <= 0` gives 0, `x >= 1` gives 255 and 0.5 gives 127;
`Clear(1, 0, 0, 1)` programs (255, 0, 0, 255). The cast, and so `Clear`, has
no defined result exactly when a scaled channel is at most -1 or at least 256. -/
theorem Clear_programs_truncated_bytes (s : SDLRenderer) (e : Env) (r g b a : ℚ)
    (hr : -1 < r * 255 ∧ r * 255 < 256) (hg : -1 < g * 255 ∧ g * 255 < 256)
    (hb : -1 < b * 255 ∧ b * 255 < 256) (ha : -1 < a * 255 ∧ a * 255 < 256) :
    s.Clear e r g b a = some (s,
      (e.call (SDLCall.SDL_SetRenderDrawColor s.renderer (truncate (r * 255)).toNat
        (truncate (g * 255)).toNat (truncate (b * 255)).toNat
        (truncate (a * 255)).toNat)).call (SDLCall.SDL_RenderClear s.renderer)) ∧
    (∀ x : ℚ, 0 ≤ x → x ≤ 1 → -1 < x * 255 ∧ x * 255 < 256) ∧
    (∀ x : ℚ, -1 < x * 255 → x ≤ 0 → toUint8 (x * 255) = some 0) ∧
    (∀ x : ℚ, 1 ≤ x → x * 255 < 256 → toUint8 (x * 255) = some 255) ∧
    toUint8 ((1 / 2 : ℚ) * 255) = some 127 ∧
    (∀ x : ℚ, toUint8 (x * 255) = none ↔ (x * 255 ≤ -1 ∨ 256 ≤ x * 255)) ∧
    s.Clear e 1 0 0 1 = some (s,
      (e.call (SDLCall.SDL_SetRenderDrawColor s.renderer 255 0 0 255)).call
        (SDLCall.SDL_RenderClear s.renderer)) := by
  have h0 : toUint8 ((0 : ℚ) * 255) = some 0 := by
    rw [toUint8_of_range _ (by norm_num)]
    simp [truncate]
  have h255 : toUint8 ((1 : ℚ) * 255) = some 255 := by
    rw [toUint8_of_range _ (by norm_num)]
    have : truncate ((1 : ℚ) * 255) = 255 := by
      unfold truncate
      rw [if_pos (by norm_num), Int.floor_eq_iff]
      norm_num
    rw [this]; rfl
  refine ⟨?_, ?_, ?_, ?_, ?_, fun x => toUint8_eq_none_iff _, ?_⟩
  · simp only [SDLRenderer.Clear, toUint8_of_range _ hr, toUint8_of_range _ hg,
      toUint8_of_range _ hb, toUint8_of_range _ ha]
  · intro x h0 h1
    constructor <;> linarith
  · intro x hx hx0
    rw [toUint8_of_range _ ⟨hx, by linarith⟩]
    have : truncate (x * 255) = 0 := by
      unfold truncate
      split_ifs with h
      · rw [Int.floor_eq_iff]; constructor
        · exact_mod_cast h
        · push_cast; linarith
      · rw [Int.ceil_eq_iff]; constructor
        · push_cast; linarith
        · push_cast; linarith
    rw [this]; rfl
  · intro x hx hx256
    rw [toUint8_of_range _ ⟨by linarith, hx256⟩]
    have : truncate (x * 255) = 255 := by
      unfold truncate
      rw [if_pos (by linarith), Int.floor_eq_iff]
      constructor
      · push_cast; linarith
      · push_cast; linarith
    rw [this]; rfl
  · rw [toUint8_of_range _ (by norm_num), truncate_half]; rfl
  · simp only [SDLRenderer.Clear, h0, h255]

/-- C5 (amended), at a concrete input: `Clear(1, 0, 0.5, 0.25)` on a fresh
surface programs the truncations of 255, 0, 127.5 and 63.75. -/
theorem Clear_programs_truncated_bytes_witness :
    ((-1 : ℚ) < (1 / 2 : ℚ) * 255 ∧ (1 / 2 : ℚ) * 255 < 256) ∧
    SDLRenderer.Clear SDLRenderer.new Env.initial 1 0 (1 / 2) (1 / 4) =
      some (SDLRenderer.new,
        (Env.initial.call (SDLCall.SDL_SetRenderDrawColor 0 (truncate ((1 : ℚ) * 255)).toNat
          (truncate ((0 : ℚ) * 255)).toNat (truncate ((1 / 2 : ℚ) * 255)).toNat
          (truncate ((1 / 4 : ℚ) * 255)).toNat)).call (SDLCall.SDL_RenderClear 0)) :=
  ⟨by norm_num,
   (Clear_programs_truncated_bytes SDLRenderer.new Env.initial 1 0 (1 / 2) (1 / 4)
      (by norm_num) (by norm_num) (by norm_num) (by norm_num)).1⟩

end Adamantite

/-! ## Properties of the C API -/

namespace Adamantite

/-- C1: with a null handle each of `renderer_destroy`, `renderer_init`,
`renderer_begin_frame`, `renderer_end_frame`, `renderer_clear`,
`renderer_present_pixels` and `renderer_shutdown` returns normally and leaves
the whole state (every surface, the SDL call log, the console) unchanged,
whatever the other arguments and the backend, and `renderer_init` returns
false. With a handle `h` that is not null and designates the live surface `s`,
each of init, begin_frame, end_frame, clear and shutdown is exactly the
corresponding `SDLRenderer` operation run on `s` in the current world: its
result is stored back at `h`, the world is the one the operation leaves, and
`renderer_init` returns what `Init` returns. -/
theorem boundary_null_noop_and_forwarding (B : Backend) (M : Machine) (h : Ptr)
    (s : SDLRenderer) (width height : Int) (title : CppString) (pixels : Ptr)
    (r g b a : ℚ) :
    renderer_destroy M 0 = some M ∧
    renderer_init B M 0 width height title = some (false, M) ∧
    renderer_begin_frame M 0 = some M ∧
    renderer_end_frame M 0 = some M ∧
    renderer_clear M 0 r g b a = some M ∧
    renderer_present_pixels B M 0 pixels width height = some M ∧
    renderer_shutdown M 0 = some M ∧
    (h ≠ 0 → M.heap.load h = some s →
      renderer_init B M h width height title =
        some ((s.Init B M.env width height title).1,
          { heap := M.heap.store h (s.Init B M.env width height title).2.1,
            env := (s.Init B M.env width height title).2.2 }) ∧
      renderer_begin_frame M h =
        some { heap := M.heap.store h (s.BeginFrame M.env).1,
               env := (s.BeginFrame M.env).2 } ∧
      renderer_end_frame M h =
        some { heap := M.heap.store h (s.EndFrame M.env).1, env := (s.EndFrame M.env).2 } ∧
      renderer_clear M h r g b a =
        (s.Clear M.env r g b a).map
          (fun res => { heap := M.heap.store h res.1, env := res.2 }) ∧
      renderer_shutdown M h =
        some { heap := M.heap.store h (s.Shutdown M.env).1,
               env := (s.Shutdown M.env).2 }) := by
  refine ⟨by simp [renderer_destroy], by simp [renderer_init],
    by simp [renderer_begin_frame], by simp [renderer_end_frame],
    by simp [renderer_clear], by simp [renderer_present_pixels],
    by simp [renderer_shutdown], ?_⟩
  intro hnull hlive
  refine ⟨?_, ?_, ?_, ?_, ?_⟩
  · simp [renderer_init, hnull, hlive]
  · simp [renderer_begin_frame, hnull, hlive]
  · simp [renderer_end_frame, hnull, hlive]
  · simp only [renderer_clear, if_neg hnull, hlive]
    cases s.Clear M.env r g b a <;> rfl
  · simp [renderer_shutdown, hnull, hlive]

/-- C1, at a concrete input: the handle returned by `renderer_create` on the
initial machine is 1, it is live, and `renderer_shutdown` on it runs
`Shutdown` on the fresh surface. -/
theorem boundary_null_noop_and_forwarding_witness :
    (1 : Ptr) ≠ 0 ∧
    (renderer_create Machine.initial).2.heap.load 1 = some SDLRenderer.new ∧
    renderer_init okBackend (renderer_create Machine.initial).2 0 640 480 (lit "demo") =
      some (false, (renderer_create Machine.initial).2) ∧
    renderer_shutdown (renderer_create Machine.initial).2 1 =
      some { heap := (renderer_create Machine.initial).2.heap.store 1
               (SDLRenderer.new.Shutdown (renderer_create Machine.initial).2.env).1,
             env := (SDLRenderer.new.Shutdown (renderer_create Machine.initial).2.env).2 } :=
  ⟨by decide, by decide,
   (boundary_null_noop_and_forwarding okBackend (renderer_create Machine.initial).2 1
      SDLRenderer.new 640 480 (lit "demo") 100 1 0 0 1).2.1,
   ((boundary_null_noop_and_forwarding okBackend (renderer_create Machine.initial).2 1
      SDLRenderer.new 640 480 (lit "demo") 100 1 0 0 1).2.2.2.2.2.2.2
        (by decide) (by decide)).2.2.2.2⟩

end Adamantite

namespace Adamantite

/-- Reading back what was just stored. -/
theorem Heap.load_store (hp : Heap) (p : Ptr) (s : SDLRenderer) :
    (Heap.store hp p s).load p = some s := by
  simp [Heap.load, Heap.store, List.lookup]

/-- The calls issued between a state and a later one whose log extends it. -/
theorem issued_of_append (M M1 : Machine) (cs : List SDLCall)
    (h : M1.env.calls = M.env.calls ++ cs) : issued M M1 = cs := by
  simp [issued, h]

/-- `renderer_present_pixels` when the texture has to be created or replaced:
the old texture, if any, is destroyed, a new one is created with the requested
size, then the pixels are uploaded and the texture is drawn. -/
theorem present_pixels_recreate (B : Backend) (M : Machine) (h : Ptr) (s : SDLRenderer)
    (pixels : Ptr) (width height : Int) (hnull : h ≠ 0) (hlive : M.heap.load h = some s)
    (hneed : s.texture = 0 ∨ s.textureWidth ≠ width ∨ s.textureHeight ≠ height) :
    renderer_present_pixels B M h pixels width height =
      some
        { heap := M.heap.store h
            { s with
              texture := B.SDL_CreateTexture (M.env.calls ++
                ((if s.texture ≠ 0 then [SDLCall.SDL_DestroyTexture s.texture] else []) ++
                  [SDLCall.SDL_CreateTexture s.renderer PixelFormat.ABGR8888 width height])),
              textureWidth := width, textureHeight := height },
          env :=
            { M.env with
              calls := M.env.calls ++
                ((if s.texture ≠ 0 then [SDLCall.SDL_DestroyTexture s.texture] else []) ++
                  [SDLCall.SDL_CreateTexture s.renderer PixelFormat.ABGR8888 width height,
                   SDLCall.SDL_UpdateTexture
                    (B.SDL_CreateTexture (M.env.calls ++
                      ((if s.texture ≠ 0 then [SDLCall.SDL_DestroyTexture s.texture] else []) ++
                        [SDLCall.SDL_CreateTexture s.renderer PixelFormat.ABGR8888 width
                          height])))
                    pixels (pitchOf width),
                   SDLCall.SDL_RenderCopy s.renderer
                    (B.SDL_CreateTexture (M.env.calls ++
                      ((if s.texture ≠ 0 then [SDLCall.SDL_DestroyTexture s.texture] else []) ++
                        [SDLCall.SDL_CreateTexture s.renderer PixelFormat.ABGR8888 width
                          height])))]) } } := by
  simp only [renderer_present_pixels, if_neg hnull, hlive, if_pos hneed]
  by_cases ht : s.texture = 0
  · simp [ht, Env.call]
  · simp [ht, Env.call]

/-- `renderer_present_pixels` when the texture exists with the requested size:
the surface is unchanged and only the upload and the draw are issued. -/
theorem present_pixels_reuse (B : Backend) (M : Machine) (h : Ptr) (s : SDLRenderer)
    (pixels : Ptr) (width height : Int) (hnull : h ≠ 0) (hlive : M.heap.load h = some s)
    (ht : s.texture ≠ 0) (hw : s.textureWidth = width) (hh : s.textureHeight = height) :
    renderer_present_pixels B M h pixels width height =
      some
        { heap := M.heap.store h s,
          env :=
            { M.env with
              calls := M.env.calls ++
                [SDLCall.SDL_UpdateTexture s.texture pixels (pitchOf width),
                 SDLCall.SDL_RenderCopy s.renderer s.texture] } } := by
  have hneed : ¬ (s.texture = 0 ∨ s.textureWidth ≠ width ∨ s.textureHeight ≠ height) := by
    simp [ht, hw, hh]
  simp only [renderer_present_pixels, if_neg hnull, hlive, if_neg hneed]
  simp [Env.call]

end Adamantite

namespace Adamantite

/-- C4 (counterexample): a call whose size equals that of the call before it
can issue a texture creation. On an initialised surface, with a backend that
refuses a 0 x 0 texture as SDL does, the second of two consecutive
`renderer_present_pixels` calls of size (0, 0) issues one creation, not zero.
With a backend whose first texture creation fails and whose second succeeds,
the second of two consecutive calls of size (2, 2) issues one creation, and
that one yields a texture (address 8). -/
theorem present_repeated_size_recreates_after_failed_creation :
    ((runOps strictBackend 1 (renderer_create Machine.initial).2
        [Op.init 640 480 (lit "demo"), Op.present_pixels 100 0 0]).bind
      (fun M1 => (renderer_present_pixels strictBackend M1 1 100 0 0).map
        (fun M2 => (creations (issued M1 M2), issued M1 M2)))) =
      some (1, [SDLCall.SDL_CreateTexture 4 PixelFormat.ABGR8888 0 0,
                SDLCall.SDL_UpdateTexture 0 100 0, SDLCall.SDL_RenderCopy 4 0]) ∧
    ((runOps flakyBackend 1 (renderer_create Machine.initial).2
        [Op.init 640 480 (lit "demo"), Op.present_pixels 100 2 2]).bind
      (fun M1 => (renderer_present_pixels flakyBackend M1 1 100 2 2).map
        (fun M2 => (creations (issued M1 M2), issued M1 M2)))) =
      some (1, [SDLCall.SDL_CreateTexture 4 PixelFormat.ABGR8888 2 2,
                SDLCall.SDL_UpdateTexture 8 100 8, SDLCall.SDL_RenderCopy 4 8]) := by
  constructor <;> decide

end Adamantite

namespace Adamantite

/-- C4 (amended): with a backend whose texture creation always succeeds, take
any state in which the non-null handle `h` designates a live surface `s`, and
two consecutive `renderer_present_pixels` calls on `h`, the first with size
`(w1, h1)` and the second with `(w2, h2)`. Both calls return. If no texture is
held before the first call (it is the first present call), that call issues
exactly one texture creation. The second call issues one texture creation
(after destroying the texture of the first) when `(w2, h2)` differs from
`(w1, h1)`, and when the sizes are equal it issues only the upload and the
draw: zero texture creations and zero texture destructions. -/
theorem present_pixels_allocation (B : Backend) (M : Machine) (h : Ptr) (s : SDLRenderer)
    (p1 p2 : Ptr) (w1 h1 w2 h2 : Int)
    (hB : ∀ log, B.SDL_CreateTexture log ≠ 0)
    (hnull : h ≠ 0) (hlive : M.heap.load h = some s) :
    ∃ M1 M2 : Machine,
      renderer_present_pixels B M h p1 w1 h1 = some M1 ∧
      renderer_present_pixels B M1 h p2 w2 h2 = some M2 ∧
      (s.texture = 0 → creations (issued M M1) = 1 ∧ destructions (issued M M1) = 0) ∧
      creations (issued M1 M2) = (if (w2, h2) = (w1, h1) then 0 else 1) ∧
      destructions (issued M1 M2) = (if (w2, h2) = (w1, h1) then 0 else 1) ∧
      ((w2, h2) = (w1, h1) → ∃ t : Ptr, t ≠ 0 ∧
        issued M1 M2 = [SDLCall.SDL_UpdateTexture t p2 (pitchOf w2),
                        SDLCall.SDL_RenderCopy s.renderer t]) := by
  -- the state after the first call: a texture is held and its size is (w1, h1)
  have first : ∃ M1 s1, renderer_present_pixels B M h p1 w1 h1 = some M1 ∧
      M1.heap.load h = some s1 ∧ s1.texture ≠ 0 ∧ s1.textureWidth = w1 ∧
      s1.textureHeight = h1 ∧ s1.renderer = s.renderer ∧
      (s.texture = 0 → creations (issued M M1) = 1 ∧ destructions (issued M M1) = 0) := by
    by_cases hneed : s.texture = 0 ∨ s.textureWidth ≠ w1 ∨ s.textureHeight ≠ h1
    · refine ⟨_, _, present_pixels_recreate B M h s p1 w1 h1 hnull hlive hneed,
        Heap.load_store _ _ _, hB _, rfl, rfl, rfl, ?_⟩
      intro ht
      rw [issued_of_append _ _ _ rfl]
      simp [ht, creations, destructions, SDLCall.isCreateTexture, SDLCall.isDestroyTexture]
    · push_neg at hneed
      refine ⟨_, _, present_pixels_reuse B M h s p1 w1 h1 hnull hlive hneed.1 hneed.2.1
        hneed.2.2, Heap.load_store _ _ _, hneed.1, hneed.2.1, hneed.2.2, rfl, ?_⟩
      intro ht
      exact absurd ht hneed.1
  obtain ⟨M1, s1, hM1, hlive1, ht1, hw1, hh1, hr1, hfirst⟩ := first
  by_cases hsame : (w2, h2) = (w1, h1)
  · have hw : s1.textureWidth = w2 := by rw [hw1]; exact (congrArg Prod.fst hsame).symm
    have hh : s1.textureHeight = h2 := by rw [hh1]; exact (congrArg Prod.snd hsame).symm
    refine ⟨M1, _, hM1, present_pixels_reuse B M1 h s1 p2 w2 h2 hnull hlive1 ht1 hw hh,
      hfirst, ?_, ?_, ?_⟩
    · rw [issued_of_append _ _ _ rfl, if_pos hsame]
      simp [creations, SDLCall.isCreateTexture]
    · rw [issued_of_append _ _ _ rfl, if_pos hsame]
      simp [destructions, SDLCall.isDestroyTexture]
    · intro _
      exact ⟨s1.texture, ht1, by rw [issued_of_append _ _ _ rfl, hr1]⟩
  · have hneed : s1.texture = 0 ∨ s1.textureWidth ≠ w2 ∨ s1.textureHeight ≠ h2 := by
      by_contra hc
      push_neg at hc
      apply hsame
      rw [← hw1, ← hh1, hc.2.1, hc.2.2]
    refine ⟨M1, _, hM1, present_pixels_recreate B M1 h s1 p2 w2 h2 hnull hlive1 hneed,
      hfirst, ?_, ?_, ?_⟩
    · rw [issued_of_append _ _ _ rfl, if_neg hsame]
      simp [ht1, creations, SDLCall.isCreateTexture]
    · rw [issued_of_append _ _ _ rfl, if_neg hsame]
      simp [ht1, destructions, SDLCall.isDestroyTexture]
    · intro hc
      exact absurd hc hsame

/-- C4 (amended), at a concrete input: the all-succeeding backend, the handle
1 returned by `renderer_create` on the initial machine, and two presents of
size 2 x 2. -/
theorem present_pixels_allocation_witness :
    (∀ log, okBackend.SDL_CreateTexture log ≠ 0) ∧ (1 : Ptr) ≠ 0 ∧
    (renderer_create Machine.initial).2.heap.load 1 = some SDLRenderer.new ∧
    ∃ M1 M2 : Machine,
      renderer_present_pixels okBackend (renderer_create Machine.initial).2 1 100 2 2
        = some M1 ∧
      renderer_present_pixels okBackend M1 1 100 2 2 = some M2 ∧
      creations (issued (renderer_create Machine.initial).2 M1) = 1 ∧
      creations (issued M1 M2) = 0 ∧ destructions (issued M1 M2) = 0 := by
  refine ⟨fun log => Nat.succ_ne_zero _, by decide, by decide, ?_⟩
  obtain ⟨M1, M2, e1, e2, c1, c2, d2, _⟩ :=
    present_pixels_allocation okBackend (renderer_create Machine.initial).2 1
      SDLRenderer.new 100 100 2 2 2 2 (fun log => Nat.succ_ne_zero _) (by decide) (by decide)
  exact ⟨M1, M2, e1, e2, (c1 rfl).1, by simpa using c2, by simpa using d2⟩

end Adamantite

/-! ## Live textures over the life of a surface -/

namespace Adamantite

/-- The effect of one more call on the number of live textures. -/
theorem liveTextures_concat (cs : List SDLCall) (c : SDLCall) :
    liveTextures (cs ++ [c]) = liveTextures cs +
      ((if c.isCreateTexture then 1 else 0) - (if c.isDestroyTexture then 1 else 0)) := by
  simp only [liveTextures, creations, destructions, List.countP_append, List.countP_singleton]
  split_ifs <;> push_cast <;> ring

/-- The empty log is safe and has no live texture. -/
theorem SafeLog.nil : SafeLog [] 0 := by
  refine ⟨fun p hp => ?_, rfl⟩
  rw [List.prefix_nil.mp hp]
  exact ⟨le_refl _, by decide⟩

/-- A call that neither creates nor destroys a texture keeps the log safe. -/
theorem SafeLog.neutral {cs : List SDLCall} {k : Int} (h : SafeLog cs k) (c : SDLCall)
    (hc : c.isCreateTexture = false) (hd : c.isDestroyTexture = false) :
    SafeLog (cs ++ [c]) k := by
  have hl : liveTextures (cs ++ [c]) = k := by
    rw [liveTextures_concat, hc, hd, h.2]; simp
  refine ⟨fun p hp => ?_, hl⟩
  rcases List.prefix_concat_iff.mp hp with rfl | hp
  · rw [hl, ← h.2]; exact h.1 cs (List.prefix_refl cs)
  · exact h.1 p hp

/-- A texture creation with no live texture leaves exactly one. -/
theorem SafeLog.create {cs : List SDLCall} (h : SafeLog cs 0) (r : Ptr) (f : PixelFormat)
    (w ht : Int) : SafeLog (cs ++ [SDLCall.SDL_CreateTexture r f w ht]) 1 := by
  have hl : liveTextures (cs ++ [SDLCall.SDL_CreateTexture r f w ht]) = 1 := by
    rw [liveTextures_concat, h.2]; simp [SDLCall.isCreateTexture, SDLCall.isDestroyTexture]
  refine ⟨fun p hp => ?_, hl⟩
  rcases List.prefix_concat_iff.mp hp with rfl | hp
  · rw [hl]; exact ⟨by decide, le_refl _⟩
  · exact h.1 p hp

/-- A texture destruction with one live texture leaves none. -/
theorem SafeLog.destroy {cs : List SDLCall} (h : SafeLog cs 1) (t : Ptr) :
    SafeLog (cs ++ [SDLCall.SDL_DestroyTexture t]) 0 := by
  have hl : liveTextures (cs ++ [SDLCall.SDL_DestroyTexture t]) = 0 := by
    rw [liveTextures_concat, h.2]; simp [SDLCall.isCreateTexture, SDLCall.isDestroyTexture]
  refine ⟨fun p hp => ?_, hl⟩
  rcases List.prefix_concat_iff.mp hp with rfl | hp
  · rw [hl]; exact ⟨le_refl _, by decide⟩
  · exact h.1 p hp

/-- `Init` issues no texture call and leaves the texture field alone. -/
theorem SDLRenderer.Init_safe (B : Backend) (s : SDLRenderer) (e : Env) (width height : Int)
    (title : CppString) (k : Int) (h : SafeLog e.calls k) :
    SafeLog (s.Init B e width height title).2.2.calls k ∧
    (s.Init B e width height title).2.1.texture = s.texture := by
  unfold SDLRenderer.Init
  simp only [Env.call, Env.cerrLine]
  split_ifs <;> refine ⟨?_, rfl⟩ <;>
    repeat first
      | exact h
      | refine SafeLog.neutral ?_ _ rfl rfl

/-- `Shutdown` destroys the texture if one is held: no texture is live after it. -/
theorem SDLRenderer.Shutdown_safe (s : SDLRenderer) (e : Env)
    (h : SafeLog e.calls (held s)) :
    SafeLog (s.Shutdown e).2.calls 0 ∧ (s.Shutdown e).1.texture = 0 := by
  obtain ⟨w, r, t, tw, th⟩ := s
  simp only [held] at h
  by_cases hr : r = 0 <;> by_cases hw : w = 0 <;> by_cases ht : t = 0 <;>
    simp only [SDLRenderer.Shutdown, hr, hw, ht, Env.call, ne_eq, not_true_eq_false,
      not_false_eq_true, if_true, if_false, and_true] <;>
    simp only [ht, if_true, if_false] at h <;>
    repeat first
      | exact h
      | refine SafeLog.neutral ?_ _ rfl rfl
      | refine SafeLog.destroy ?_ _

end Adamantite

namespace Adamantite

/-- `renderer_present_pixels` keeps the invariant, when texture creation
succeeds. -/
theorem present_pixels_safe (B : Backend) (hB : ∀ log, B.SDL_CreateTexture log ≠ 0)
    (M : Machine) (h : Ptr) (hnull : h ≠ 0) (pixels : Ptr) (width height : Int)
    (hinv : LiveInv h M) :
    ∃ M1, renderer_present_pixels B M h pixels width height = some M1 ∧ LiveInv h M1 := by
  obtain ⟨s, hlive, hsafe⟩ := hinv
  by_cases hneed : s.texture = 0 ∨ s.textureWidth ≠ width ∨ s.textureHeight ≠ height
  · by_cases ht : s.texture = 0
    · apply Exists.intro
      refine ⟨?_, ?_⟩
      · simp only [renderer_present_pixels, if_neg hnull, hlive, if_pos hneed]
        rfl
      · refine ⟨_, Heap.load_store _ _ _, ?_⟩
        simp only [held, ht, if_true, ne_eq, not_true_eq_false, if_false, Env.call] at hsafe ⊢
        rw [if_neg (hB _)]
        refine SafeLog.neutral ?_ _ rfl rfl
        refine SafeLog.neutral ?_ _ rfl rfl
        exact SafeLog.create hsafe _ _ _ _
    · apply Exists.intro
      refine ⟨?_, ?_⟩
      · simp only [renderer_present_pixels, if_neg hnull, hlive, if_pos hneed]
        rfl
      · refine ⟨_, Heap.load_store _ _ _, ?_⟩
        simp only [held, ht, if_true, ne_eq, not_false_eq_true, if_false, Env.call] at hsafe ⊢
        rw [if_neg (hB _)]
        refine SafeLog.neutral ?_ _ rfl rfl
        refine SafeLog.neutral ?_ _ rfl rfl
        exact SafeLog.create (SafeLog.destroy hsafe _) _ _ _ _
  · apply Exists.intro
    refine ⟨?_, ?_⟩
    · simp only [renderer_present_pixels, if_neg hnull, hlive, if_neg hneed]
      rfl
    · refine ⟨_, Heap.load_store _ _ _, ?_⟩
      simp only [Env.call]
      refine SafeLog.neutral ?_ _ rfl rfl
      exact SafeLog.neutral hsafe _ rfl rfl

/-- `renderer_init` keeps the invariant. -/
theorem init_safe (B : Backend) (M : Machine) (h : Ptr) (hnull : h ≠ 0)
    (width height : Int) (title : CppString) (hinv : LiveInv h M) :
    ∃ r, renderer_init B M h width height title = some r ∧ LiveInv h r.2 := by
  obtain ⟨s, hlive, hsafe⟩ := hinv
  apply Exists.intro
  refine ⟨?_, ?_⟩
  · simp only [renderer_init, if_neg hnull, hlive]
    rfl
  · refine ⟨_, Heap.load_store _ _ _, ?_⟩
    have hi := SDLRenderer.Init_safe B s M.env width height title _ hsafe
    simp only [held, hi.2]
    exact hi.1

/-- `renderer_shutdown` keeps the invariant and leaves no live texture. -/
theorem shutdown_safe (M : Machine) (h : Ptr) (hnull : h ≠ 0) (hinv : LiveInv h M) :
    ∃ M1, renderer_shutdown M h = some M1 ∧ LiveInv h M1 ∧ SafeLog M1.env.calls 0 := by
  obtain ⟨s, hlive, hsafe⟩ := hinv
  have hs := SDLRenderer.Shutdown_safe s M.env hsafe
  apply Exists.intro
  refine ⟨?_, ?_⟩
  · simp only [renderer_shutdown, if_neg hnull, hlive]
    rfl
  · refine ⟨⟨_, Heap.load_store _ _ _, ?_⟩, hs.1⟩
    simp only [held, hs.2, if_true]
    exact hs.1

/-- `renderer_destroy` on a live handle leaves no live texture. -/
theorem destroy_safe (M : Machine) (h : Ptr) (hnull : h ≠ 0) (hinv : LiveInv h M) :
    ∃ M1, renderer_destroy M h = some M1 ∧ SafeLog M1.env.calls 0 := by
  obtain ⟨s, hlive, hsafe⟩ := hinv
  apply Exists.intro
  refine ⟨?_, ?_⟩
  · simp only [renderer_destroy, if_neg hnull, hlive]
    rfl
  · exact (SDLRenderer.Shutdown_safe s M.env hsafe).1

/-- Any sequence of init / present_pixels / shutdown calls returns and keeps
the invariant. -/
theorem runOps_safe (B : Backend) (hB : ∀ log, B.SDL_CreateTexture log ≠ 0) (h : Ptr)
    (hnull : h ≠ 0) (ops : List Op) :
    ∀ M, LiveInv h M → ∃ M1, runOps B h M ops = some M1 ∧ LiveInv h M1 := by
  induction ops with
  | nil => exact fun M hinv => ⟨M, rfl, hinv⟩
  | cons op ops ih =>
    intro M hinv
    have hstep : ∃ M1, op.apply B h M = some M1 ∧ LiveInv h M1 := by
      cases op with
      | init width height title =>
        obtain ⟨r, hr, hr2⟩ := init_safe B M h hnull width height title hinv
        exact ⟨r.2, by simp [Op.apply, hr], hr2⟩
      | present_pixels pixels width height =>
        exact present_pixels_safe B hB M h hnull pixels width height hinv
      | shutdown =>
        obtain ⟨M1, h1, h2, _⟩ := shutdown_safe M h hnull hinv
        exact ⟨M1, h1, h2⟩
    obtain ⟨M1, h1, hinv1⟩ := hstep
    obtain ⟨M2, h2, hinv2⟩ := ih M1 hinv1
    exact ⟨M2, by simp [runOps, h1, h2], hinv2⟩

/-- The handle returned by `renderer_create` on the initial machine is not
null and designates a fresh surface; nothing is live. -/
theorem create_safe :
    (renderer_create Machine.initial).1 ≠ 0 ∧
    LiveInv (renderer_create Machine.initial).1 (renderer_create Machine.initial).2 :=
  ⟨by decide, SDLRenderer.new, by decide, SafeLog.nil⟩

/-- C9: with a backend whose texture creation succeeds, take the life of a
surface: `renderer_create` on the initial machine, any sequence `ops` of
init / present_pixels / shutdown calls on the returned handle, then
`renderer_destroy`. Every call returns, and at every point of the resulting
SDL call log (every prefix of it) the number of live textures, creations
minus destructions, is 0 or 1, so a creation is always preceded by the
destruction of the previous texture. After `renderer_destroy` the number is
0, and it is 0 as well after a `renderer_shutdown` issued at the end of
`ops`. -/
theorem at_most_one_live_texture (B : Backend) (ops : List Op)
    (hB : ∀ log, B.SDL_CreateTexture log ≠ 0) :
    ∃ M1 Mend Mshut : Machine,
      runOps B (renderer_create Machine.initial).1 (renderer_create Machine.initial).2 ops
        = some M1 ∧
      renderer_destroy M1 (renderer_create Machine.initial).1 = some Mend ∧
      (∀ p, p <+: Mend.env.calls → 0 ≤ liveTextures p ∧ liveTextures p ≤ 1) ∧
      liveTextures Mend.env.calls = 0 ∧
      M1.env.calls <+: Mend.env.calls ∧
      renderer_shutdown M1 (renderer_create Machine.initial).1 = some Mshut ∧
      (∀ p, p <+: Mshut.env.calls → 0 ≤ liveTextures p ∧ liveTextures p ≤ 1) ∧
      liveTextures Mshut.env.calls = 0 := by
  obtain ⟨hnull, hinv⟩ := create_safe
  obtain ⟨M1, hrun, hinv1⟩ := runOps_safe B hB _ hnull ops _ hinv
  obtain ⟨Mend, hend, hsafe⟩ := destroy_safe M1 _ hnull hinv1
  obtain ⟨Mshut, hshut, _, hsafe2⟩ := shutdown_safe M1 _ hnull hinv1
  refine ⟨M1, Mend, Mshut, hrun, hend, hsafe.1, hsafe.2, ?_, hshut, hsafe2.1, hsafe2.2⟩
  obtain ⟨s, hlive, _⟩ := hinv1
  simp only [renderer_destroy, if_neg hnull, hlive, Option.some.injEq] at hend
  subst hend
  obtain ⟨w, r, t, tw, th⟩ := s
  by_cases hr : r = 0 <;> by_cases hw : w = 0 <;> by_cases ht : t = 0 <;>
    simp [SDLRenderer.destruct, SDLRenderer.Shutdown, hr, hw, ht, Env.call]

/-- C9, at a concrete input: the all-succeeding backend and the sequence
init, present 2 x 2, present 4 x 4, shutdown, present 4 x 4. -/
theorem at_most_one_live_texture_witness :
    (∀ log, okBackend.SDL_CreateTexture log ≠ 0) ∧
    ∃ M1 Mend Mshut : Machine,
      runOps okBackend (renderer_create Machine.initial).1
        (renderer_create Machine.initial).2
        [Op.init 640 480 (lit "demo"), Op.present_pixels 100 2 2,
         Op.present_pixels 100 4 4, Op.shutdown, Op.present_pixels 100 4 4] = some M1 ∧
      renderer_destroy M1 (renderer_create Machine.initial).1 = some Mend ∧
      (∀ p, p <+: Mend.env.calls → 0 ≤ liveTextures p ∧ liveTextures p ≤ 1) ∧
      liveTextures Mend.env.calls = 0 ∧
      M1.env.calls <+: Mend.env.calls ∧
      renderer_shutdown M1 (renderer_create Machine.initial).1 = some Mshut ∧
      (∀ p, p <+: Mshut.env.calls → 0 ≤ liveTextures p ∧ liveTextures p ≤ 1) ∧
      liveTextures Mshut.env.calls = 0 :=
  ⟨fun _ => Nat.succ_ne_zero _,
   at_most_one_live_texture okBackend _ (fun _ => Nat.succ_ne_zero _)⟩

end Adamantite

/-! ## The upload format -/

namespace Adamantite

/-- The pitch passed to `SDL_UpdateTexture` is `width * 4` for every width
from 0 up to (not including) 2 ^ 29. -/
theorem pitchOf_eq (width : Int) (h0 : 0 ≤ width) (h1 : width < 2 ^ 29) :
    pitchOf width = width * 4 := by
  unfold pitchOf toInt32
  have e1 : (2 : Int) ^ 31 = 2147483648 := by norm_num
  have e2 : (2 : Int) ^ 32 = 4294967296 := by norm_num
  have e3 : (2 : Int) ^ 29 = 536870912 := by norm_num
  rw [e3] at h1
  rw [e1, e2]
  omega

/-- Every texture `renderer_present_pixels` creates has format ABGR8888, and
every upload uses the pitch `pitchOf width`. -/
theorem present_pixels_calls_mem (B : Backend) (M M1 : Machine) (h : Ptr)
    (pixels : Ptr) (width height : Int)
    (hrun : renderer_present_pixels B M h pixels width height = some M1) (c : SDLCall)
    (hc : c ∈ issued M M1) :
    (c.isCreateTexture = true →
      ∃ r, c = SDLCall.SDL_CreateTexture r PixelFormat.ABGR8888 width height) ∧
    (∀ t p q, c = SDLCall.SDL_UpdateTexture t p q → p = pixels ∧ q = pitchOf width) := by
  by_cases hnull : h = 0
  · simp only [renderer_present_pixels, if_pos hnull, Option.some.injEq] at hrun
    subst hrun
    simp [issued] at hc
  · cases hlive : M.heap.load h with
    | none => simp [renderer_present_pixels, hnull, hlive] at hrun
    | some s =>
      by_cases hneed : s.texture = 0 ∨ s.textureWidth ≠ width ∨ s.textureHeight ≠ height
      · rw [present_pixels_recreate B M h s pixels width height hnull hlive hneed,
          Option.some.injEq] at hrun
        subst hrun
        rw [issued_of_append _ _ _ rfl] at hc
        by_cases ht : s.texture = 0
        · simp only [ht, ne_eq, not_true_eq_false, if_false, List.nil_append, List.mem_cons,
            List.mem_singleton, List.not_mem_nil, or_false] at hc
          rcases hc with rfl | rfl | rfl <;>
            simp [SDLCall.isCreateTexture]
        · simp only [ht, ne_eq, not_false_eq_true, if_true, List.singleton_append,
            List.mem_cons, List.mem_singleton, List.not_mem_nil, or_false] at hc
          rcases hc with rfl | rfl | rfl | rfl <;>
            simp [SDLCall.isCreateTexture]
      · push_neg at hneed
        rw [present_pixels_reuse B M h s pixels width height hnull hlive hneed.1 hneed.2.1
          hneed.2.2, Option.some.injEq] at hrun
        subst hrun
        rw [issued_of_append _ _ _ rfl] at hc
        simp only [List.mem_cons, List.mem_singleton, List.not_mem_nil, or_false] at hc
        rcases hc with rfl | rfl <;> simp [SDLCall.isCreateTexture]

/-- C10 (what the code does): the rows are uploaded tightly packed (pitch
8 = 2 * 4 for width 2), but the presentation texture is created with the
packed format ABGR8888, not ARGB8888. With the all-succeeding backend, create,
init and one present of size 2 x 2 issue `SDL_CreateTexture(4, ABGR8888, 2,
2)` and `SDL_UpdateTexture(5, pixels, 8)`. In ABGR8888 the pixel value
0xFFFF0000, opaque red when read as 0xAARRGGBB, is read as alpha 255, red 0,
green 0, blue 255: red and blue are exchanged. -/
theorem present_pixels_uploads_ABGR :
    ((runOps okBackend 1 (renderer_create Machine.initial).2
        [Op.init 640 480 (lit "demo"), Op.present_pixels 100 2 2]).map
      (fun M => M.env.calls)) =
      some [SDLCall.SDL_Init, SDLCall.SDL_CreateWindow (lit "demo") 640 480,
            SDLCall.SDL_CreateRenderer 3,
            SDLCall.SDL_CreateTexture 4 PixelFormat.ABGR8888 2 2,
            SDLCall.SDL_UpdateTexture 5 100 8, SDLCall.SDL_RenderCopy 4 5] ∧
    PixelFormat.read PixelFormat.ARGB8888 0xFFFF0000 = { a := 255, r := 255, g := 0, b := 0 } ∧
    PixelFormat.read PixelFormat.ABGR8888 0xFFFF0000 = { a := 255, r := 0, g := 0, b := 255 } ∧
    PixelFormat.ABGR8888 ≠ PixelFormat.ARGB8888 := by
  refine ⟨by decide, by decide, by decide, by decide⟩

end Adamantite
